import Mathlib

/-!
Verification development for the DoseWise frontend.

The repository ships the React frontend of DoseWise; the decision logic that
is visible in source lives in the Dashboard page (reminder selection, the
urgent-missed-dose filter), the PillCard component (per-slot badges and the
local record of taken doses), the Setup page (time-slot editing) and the
InventoryStatus component (low-stock display).  Those functions are embedded
below as executable Lean definitions.  Instants are modelled as integers in
milliseconds; a daily time-of-day slot is a number of minutes since midnight
and `slotMs` materializes it on today's date, exactly as the source does with
`doseTime.setHours(h, m, 0, 0)`.

The backend engine (inventory decrement, run-out prediction, dose
confirmation) is not part of the repository; where a property depends on it,
a definition marked "Modelled from the spec" stands in for the missing code.
-/

namespace DoseWise

/-- A slot of `t` minutes since midnight, materialized on today's date, as
milliseconds since today's midnight. -/
def slotMs (t : Nat) : Int := (t : Int) * 60000

/-- A medication as shaped by the Dashboard `loadData` mapping: `takenToday`
is a single medication-level flag, `timings` the list of daily slots (minutes
since midnight) and `nextDoseAt` the backend-supplied next dose instant. -/
structure Med where
  name : String
  takenToday : Bool
  timings : List Nat
  nextDoseAt : Option Int
deriving DecidableEq

/-- The backend medication record as consumed by `loadData`: `lastTakenAt`
mirrors `m.last_taken_at`. -/
structure BackendMed where
  name : String
  lastTakenAt : Option Int
  timings : List Nat
  nextDoseAt : Option Int
deriving DecidableEq

/-- Mirrors the Dashboard `loadData` mapping: `takenToday: !!m.last_taken_at`
(the flag is medication-level, not per slot). -/
def loadMed (m : BackendMed) : Med :=
  { name := m.name
    takenToday := m.lastTakenAt.isSome
    timings := m.timings
    nextDoseAt := m.nextDoseAt }

/-- The Dashboard `snoozed` map (medication id, which `loadData` sets to the
name, to the snoozed-until instant); absent entries are `none`. -/
def emptySnooze : String → Option Int := fun _ => none

/-- The guard `snoozed[m.id] && snoozed[m.id] > nowMs` from
`getNextDueMedication`. -/
def snoozeActive (snoozed : String → Option Int) (nowMs : Int) (m : Med) : Bool :=
  match snoozed m.name with
  | none => false
  | some t => decide (t > nowMs)

/-- The eligibility test applied to one medication inside the
`getNextDueMedication` loop: not taken today, not actively snoozed, a next
dose instant exists, and it is within the window either way or past due by
less than 12 hours. -/
def eligibleForReminder (nowMs : Int) (windowMinutes : Nat)
    (snoozed : String → Option Int) (m : Med) : Bool :=
  !m.takenToday && !snoozeActive snoozed nowMs m &&
    (match m.nextDoseAt with
     | none => false
     | some nextMs =>
         decide (|nextMs - nowMs| ≤ (windowMinutes : Int) * 60000) ||
           (decide (nextMs < nowMs) && decide (nowMs - nextMs < 12 * 60 * 60 * 1000)))

/-- Mirrors the Dashboard `getNextDueMedication` loop: return the first
medication in list order that passes the eligibility test. -/
def getNextDueMedication (medications : List Med) (nowMs : Int)
    (windowMinutes : Nat) (snoozed : String → Option Int) : Option Med :=
  match medications with
  | [] => none
  | m :: rest =>
      if eligibleForReminder nowMs windowMinutes snoozed m then some m
      else getNextDueMedication rest nowMs windowMinutes snoozed

/-- The per-medication test inside the Dashboard `urgentMissedDoses` filter:
not taken today and some slot instant is in the past and at least
`now - 2 hours` (the source comment: only flag if the dose time is in the
past and within the last 2 hours). -/
def isUrgentMissedMed (nowMs : Int) (med : Med) : Bool :=
  !med.takenToday &&
    med.timings.any fun time =>
      decide (slotMs time < nowMs) && decide (slotMs time ≥ nowMs - 2 * 60 * 60 * 1000)

/-- Mirrors the Dashboard `urgentMissedDoses` computation. -/
def urgentMissedDoses (medications : List Med) (nowMs : Int) : List Med :=
  medications.filter (isUrgentMissedMed nowMs)

/-- The two dose-related outputs the Dashboard render computes from the same
state: the selected reminder (which consults the snoozed map) and the
urgent-missed list (which does not). -/
def dashboardView (medications : List Med) (nowMs : Int)
    (snoozed : String → Option Int) : Option Med × List Med :=
  (getNextDueMedication medications nowMs 30 snoozed,
   urgentMissedDoses medications nowMs)

/-- The five badge states a PillCard timing row can display. -/
inductive TimingBadge where
  | taken
  | urgentMissed
  | missed
  | next
  | upcoming
deriving DecidableEq

/-- Mirrors the badge chain in PillCard for one timing row:
taken, else urgent-missed (past and within the last 2 hours and not taken),
else missed (past and not taken), else next, else upcoming. -/
def timingBadge (doseTaken : Bool) (isNext : Bool) (time : Nat) (nowMs : Int) :
    TimingBadge :=
  let isPast := decide (slotMs time < nowMs)
  let isUrgentMissed :=
    isPast && decide (slotMs time ≥ nowMs - 2 * 60 * 60 * 1000) && !doseTaken
  let isMissed := isPast && !doseTaken
  if doseTaken then .taken
  else if isUrgentMissed then .urgentMissed
  else if isMissed then .missed
  else if isNext then .next
  else .upcoming

/-- The localStorage record of taken doses for one day, as a map from
medication name to the list of taken slot times. -/
def markDoseTaken (store : String → List Nat) (medName : String) (time : Nat) :
    String → List Nat :=
  fun n =>
    if n = medName then
      if time ∈ store medName then store medName else store medName ++ [time]
    else store n

/-- Mirrors PillCard `isDoseTaken`: membership of the slot time in the day's
record for the medication. -/
def isDoseTaken (store : String → List Nat) (medName : String) (time : Nat) : Bool :=
  decide (time ∈ store medName)

/-- Loop state of PillCard `getCurrentDose`: the best candidate so far, with
its difference `now - doseTime`, starting from none with an infinite minimum. -/
def getCurrentDoseAux (nowMs : Int) :
    List Nat → Option (Nat × Int) → Option (Nat × Int)
  | [], best => best
  | t :: ts, best =>
      if slotMs t ≤ nowMs then
        match best with
        | none => getCurrentDoseAux nowMs ts (some (t, nowMs - slotMs t))
        | some (b, d) =>
            if nowMs - slotMs t < d then
              getCurrentDoseAux nowMs ts (some (t, nowMs - slotMs t))
            else getCurrentDoseAux nowMs ts (some (b, d))
      else getCurrentDoseAux nowMs ts best

/-- Mirrors PillCard `getCurrentDose`: among the slots whose today-instant is
at or before now, the one with the smallest difference; none if every slot is
still in the future. -/
def getCurrentDose (timings : List Nat) (nowMs : Int) : Option Nat :=
  (getCurrentDoseAux nowMs timings none).map Prod.fst

/-- Mirrors Setup `addTimeSlot`: append a default 12:00 slot. -/
def addTimeSlot (times : List Nat) : List Nat := times ++ [12 * 60]

/-- Mirrors Setup `handleTimeChange`: write the new value at the given index.
The UI only produces indices of rendered slots; for an out-of-range index the
model leaves the list unchanged where the source would grow it, and in both
the list never shrinks. -/
def handleTimeChange (times : List Nat) (timeIndex : Nat) (value : Nat) : List Nat :=
  times.set timeIndex value

/-- Mirrors Setup `removeTimeSlot`: drop the slot at the index, then reinstate
a default 08:00 slot if nothing is left. -/
def removeTimeSlot (times : List Nat) (timeIndex : Nat) : List Nat :=
  let filtered := times.eraseIdx timeIndex
  if filtered.isEmpty then [8 * 60] else filtered

/-- One edit of a medication entry's times list in the Setup form. -/
inductive SetupOp where
  | addTime
  | changeTime (timeIndex : Nat) (value : Nat)
  | removeTime (timeIndex : Nat)

/-- Apply one Setup edit to a times list. -/
def applySetupOp (times : List Nat) : SetupOp → List Nat
  | .addTime => addTimeSlot times
  | .changeTime i v => handleTimeChange times i v
  | .removeTime i => removeTimeSlot times i

/-- Mirrors the `handleSubmit` guard on each medication's times:
an empty list is replaced by the default 08:00 slot. -/
def payloadTimes (times : List Nat) : List Nat :=
  if times.isEmpty then [8 * 60] else times

/-- The effective low-stock threshold in InventoryStatus:
`item.low_stock_threshold || 10`, with 0 standing for an absent or zero field. -/
def effLowStockThreshold (lowStockThreshold : Nat) : Nat :=
  if lowStockThreshold = 0 then 10 else lowStockThreshold

/-- The display total in InventoryStatus:
`Math.max(item.quantity, (item.low_stock_threshold || 10) * 3)`. -/
def displayTotal (quantity lowStockThreshold : Nat) : Nat :=
  max quantity (3 * effLowStockThreshold lowStockThreshold)

/-- The percentage computed in InventoryStatus: `(count / total) * 100`. -/
def stockPercentage (count total : Nat) : ℚ :=
  (count : ℚ) / (total : ℚ) * 100

/-- The InventoryStatus low test: `percentage < 20`. -/
def isLowStock (count total : Nat) : Bool :=
  decide (stockPercentage count total < 20)

/-- Whether the low-stock warning is rendered for an inventory item with the
given backend quantity and low-stock threshold. -/
def showsLowStockWarning (quantity lowStockThreshold : Nat) : Bool :=
  isLowStock quantity (displayTotal quantity lowStockThreshold)

/-- The overdue-urgent classification in the words of the spec: the dose is
not confirmed and now minus the slot instant is at least the missed-escalation
window of 2 hours.  Stated from the spec, to be compared with the code's
classification. -/
def specOverdueUrgent (takenToday : Bool) (time : Nat) (nowMs : Int) : Prop :=
  takenToday = false ∧ nowMs - slotMs time ≥ 2 * 60 * 60 * 1000

/-- Error raised by the spec's inventory decrement. -/
inductive InventoryError where
  | insufficientStock
deriving DecidableEq

/-- Modelled from the spec: the backend Inventory Tracker operation
`decrement(medication)` (the backend is not in this repository).  It fails
with InsufficientStock if the remaining count is 0, otherwise remaining
decreases by 1. -/
def decrement (remaining : Int) : Except InventoryError Int :=
  if remaining = 0 then .error .insufficientStock else .ok (remaining - 1)

/-- Modelled from the spec: the backend `predictRunOut(record, rate)` (the
backend is not in this repository).  A rate of 0 yields no prediction,
otherwise the run-out date is now plus remaining divided by the daily
consumption rate, in days. -/
def predictRunOut (remaining : Nat) (dailyConsumptionRate : Nat) (nowDays : ℚ) :
    Option ℚ :=
  if dailyConsumptionRate = 0 then none
  else some (nowDays + (remaining : ℚ) / (dailyConsumptionRate : ℚ))

/-- Modelled from the spec: restock adds the given units to the remaining
count (the backend is not in this repository). -/
def restock (remaining addedUnits : Nat) : Nat := remaining + addedUnits

/-- Result of the spec's dose confirmation. -/
inductive ConfirmResult where
  | resolvedOk
  | alreadyResolved
  | insufficientStock
deriving DecidableEq

/-- The per-instance state the spec's confirmation acts on: the resolution
flag of the DoseInstance and the medication's remaining inventory. -/
structure DoseInstanceState where
  resolved : Bool
  remaining : Int
deriving DecidableEq

/-- Modelled from the spec: the backend `confirmDose` (the backend is not in
this repository).  A duplicate confirmation of a resolved instance is a
no-op, a confirmation against zero stock is rejected leaving the instance
unresolved, and otherwise the instance resolves and the inventory decrements
by one. -/
def confirmDose (s : DoseInstanceState) : ConfirmResult × DoseInstanceState :=
  if s.resolved then (.alreadyResolved, s)
  else if s.remaining = 0 then (.insufficientStock, s)
  else (.resolvedOk, { resolved := true, remaining := s.remaining - 1 })

/-! Theorems for the claims. -/

/-- C1 counterexample: at 11:00 an unconfirmed dose scheduled at 08:00 is
3 hours past, satisfying the spec overdue-urgent condition (now minus instant
at least 2 hours), yet the Dashboard urgent filter excludes the medication
and the PillCard row shows the plain missed badge: the code flags urgent only
while the dose is at most 2 hours past, so a dose does drop out of the urgent
classification once more than 2 hours have elapsed. -/
theorem claim_C1_counterexample :
    specOverdueUrgent false 480 39600000 ∧
    isUrgentMissedMed 39600000
      { name := "Lisinopril", takenToday := false, timings := [480],
        nextDoseAt := none } = false ∧
    urgentMissedDoses
      [{ name := "Lisinopril", takenToday := false, timings := [480],
         nextDoseAt := none }] 39600000 = [] ∧
    timingBadge false false 480 39600000 = .missed := by
  refine ⟨?_, by decide, by decide, by decide⟩
  norm_num [specOverdueUrgent, slotMs]

/-- C1 amended: the Dashboard urgent filter flags a medication exactly when
it is not taken today and some slot instant is in the past by more than zero
and at most 2 hours, and a PillCard row whose unconfirmed slot is more than
2 hours past shows the plain missed badge, not the urgent one. -/
theorem claim_C1_amended :
    (∀ (med : Med) (nowMs : Int),
        isUrgentMissedMed nowMs med = true ↔
          med.takenToday = false ∧
            ∃ time ∈ med.timings,
              0 < nowMs - slotMs time ∧ nowMs - slotMs time ≤ 7200000) ∧
    (∀ (doseTaken isNext : Bool) (time : Nat) (nowMs : Int),
        doseTaken = false → 7200000 < nowMs - slotMs time →
          timingBadge doseTaken isNext time nowMs = .missed) := by
  constructor
  · intro med now
    simp only [isUrgentMissedMed, Bool.and_eq_true, Bool.not_eq_true',
      List.any_eq_true, decide_eq_true_eq]
    constructor
    · rintro ⟨ht, t, htm, h1, h2⟩
      exact ⟨ht, t, htm, by omega, by omega⟩
    · rintro ⟨ht, t, htm, h1, h2⟩
      exact ⟨ht, t, htm, by omega, by omega⟩
  · intro dt isNext time now h1 h2
    subst h1
    have hpast : slotMs time < now := by omega
    have hnot : ¬(slotMs time ≥ now - 2 * 60 * 60 * 1000) := by omega
    simp [timingBadge, hpast, hnot]
    omega

/-- C1 amended witness: at 09:00 the 08:00 dose (1 hour past) is flagged
urgent, and at 11:00 the same dose (3 hours past) shows the missed badge. -/
theorem claim_C1_amended_witness :
    isUrgentMissedMed 32400000
      { name := "Lisinopril", takenToday := false, timings := [480],
        nextDoseAt := none } = true ∧
    timingBadge false false 480 39600000 = .missed :=
  ⟨(claim_C1_amended.1
      { name := "Lisinopril", takenToday := false, timings := [480],
        nextDoseAt := none } 32400000).mpr
      ⟨rfl, 480, by decide, by decide, by decide⟩,
   claim_C1_amended.2 false false 480 39600000 rfl (by decide)⟩

/-- C2 counterexample: a medication with slots 08:00 and 20:00 whose 08:00
dose was confirmed at 08:05 (so last_taken_at is set) is skipped entirely by
the reminder selection at 20:15, even though its 20:00 slot is unconfirmed
and inside the 30-minute due window: the medication-level takenToday flag
merges the slots. -/
theorem claim_C2_counterexample :
    (loadMed
        { name := "Metformin", lastTakenAt := some 29100000,
          timings := [480, 1200], nextDoseAt := some 72000000 }).takenToday = true ∧
    |(72000000 : Int) - 72900000| ≤ 30 * 60000 ∧
    getNextDueMedication
      [loadMed
          { name := "Metformin", lastTakenAt := some 29100000,
            timings := [480, 1200], nextDoseAt := some 72000000 }]
      72900000 30 emptySnooze = none := by
  decide

/-- C2 amended: only the PillCard per-slot badge record is slot-independent
(marking one slot taken does not change another slot's taken test); the
Dashboard derives a medication-level takenToday from last_taken_at, and once
it is set the medication, all slots included, is removed from reminder
selection and from the urgent-missed computation for the rest of the day. -/
theorem claim_C2_amended :
    (∀ (m : BackendMed) (t : Int),
        m.lastTakenAt = some t → (loadMed m).takenToday = true) ∧
    (∀ (med : Med) (rest : List Med) (nowMs : Int) (w : Nat)
        (snoozed : String → Option Int),
        med.takenToday = true →
          getNextDueMedication (med :: rest) nowMs w snoozed =
            getNextDueMedication rest nowMs w snoozed) ∧
    (∀ (med : Med) (nowMs : Int),
        med.takenToday = true → isUrgentMissedMed nowMs med = false) ∧
    (∀ (store : String → List Nat) (medName : String) (t u : Nat), t ≠ u →
        isDoseTaken (markDoseTaken store medName t) medName u =
          isDoseTaken store medName u) := by
  refine ⟨?_, ?_, ?_, ?_⟩
  · intro m t h
    simp [loadMed, h]
  · intro med rest now w s h
    simp [getNextDueMedication, eligibleForReminder, h]
  · intro med now h
    simp [isUrgentMissedMed, h]
  · intro store medName t u htu
    by_cases hmem : t ∈ store medName
    · simp [isDoseTaken, markDoseTaken, hmem]
    · simp [isDoseTaken, markDoseTaken, hmem, List.mem_append, Ne.symm htu]

/-- C2 amended witness: the parts of the amended claim at concrete inputs. -/
theorem claim_C2_amended_witness :
    (loadMed
        { name := "Metformin", lastTakenAt := some 29100000,
          timings := [480, 1200], nextDoseAt := some 72000000 }).takenToday = true ∧
    getNextDueMedication
        [{ name := "Metformin", takenToday := true, timings := [480, 1200],
           nextDoseAt := some 72000000 }] 72900000 30 emptySnooze =
      getNextDueMedication [] 72900000 30 emptySnooze ∧
    isUrgentMissedMed 72900000
      { name := "Metformin", takenToday := true, timings := [480, 1200],
        nextDoseAt := some 72000000 } = false ∧
    isDoseTaken (markDoseTaken (fun _ => []) "Metformin" 480) "Metformin" 1200 =
      isDoseTaken (fun _ => []) "Metformin" 1200 :=
  ⟨claim_C2_amended.1 _ 29100000 rfl,
   claim_C2_amended.2.1 _ [] 72900000 30 emptySnooze rfl,
   claim_C2_amended.2.2.1 _ 72900000 rfl,
   claim_C2_amended.2.2.2 _ "Metformin" 480 1200 (by decide)⟩

/-- C3 counterexample: at 12:00, with Aspirin first in the list and merely
due at 12:20 and Bisoprolol overdue-urgent since 09:00 (3 hours past) and
eligible, the selection returns Aspirin: the loop returns the first eligible
medication in list order instead of preferring the overdue-urgent one. -/
theorem claim_C3_counterexample :
    getNextDueMedication
        [{ name := "Aspirin", takenToday := false, timings := [740],
           nextDoseAt := some 44400000 },
         { name := "Bisoprolol", takenToday := false, timings := [540],
           nextDoseAt := some 32400000 }] 43200000 30 emptySnooze =
      some { name := "Aspirin", takenToday := false, timings := [740],
             nextDoseAt := some 44400000 } ∧
    eligibleForReminder 43200000 30 emptySnooze
      { name := "Bisoprolol", takenToday := false, timings := [540],
        nextDoseAt := some 32400000 } = true ∧
    specOverdueUrgent false 540 43200000 ∧
    ¬specOverdueUrgent false 740 43200000 := by
  refine ⟨by decide, by decide, ?_, ?_⟩
  · norm_num [specOverdueUrgent, slotMs]
  · norm_num [specOverdueUrgent, slotMs]

/-- C3 amended: the selection is exactly the first medication in list order
that passes the eligibility test (not taken today, not actively snoozed, next
dose instant within the window either way or past due by under 12 hours); no
overdue-urgent-first rule, nearest-instant minimization, or medication-name
tie-break is applied. -/
theorem claim_C3_amended :
    ∀ (medications : List Med) (nowMs : Int) (windowMinutes : Nat)
      (snoozed : String → Option Int),
      getNextDueMedication medications nowMs windowMinutes snoozed =
        medications.find? (eligibleForReminder nowMs windowMinutes snoozed) := by
  intro meds now w s
  induction meds with
  | nil => rfl
  | cons m rest ih =>
      by_cases h : eligibleForReminder now w s m = true
      · rw [List.find?_cons_of_pos _ h]
        simp [getNextDueMedication, h]
      · rw [List.find?_cons_of_neg _ h]
        simp only [getNextDueMedication, ih]
        rw [if_neg h]

/-- C4: snoozing a medication suppresses it from reminder selection exactly
while the snooze instant is in the future (selection over the full list with
the snoozed map equals selection with the actively snoozed medications
filtered out and no snooze map), while the urgent-missed computation of the
same dashboard state is identical for every snoozed map: snoozing never
delays or suppresses the urgent determination. -/
theorem claim_C4_snooze :
    ∀ (medications : List Med) (nowMs : Int)
      (snoozed snoozed2 : String → Option Int),
      (dashboardView medications nowMs snoozed).1 =
        getNextDueMedication
          (medications.filter fun m => !snoozeActive snoozed nowMs m)
          nowMs 30 emptySnooze ∧
      (dashboardView medications nowMs snoozed).2 =
        (dashboardView medications nowMs snoozed2).2 := by
  intro meds now s s2
  refine ⟨?_, rfl⟩
  show getNextDueMedication meds now 30 s =
    getNextDueMedication (meds.filter fun m => !snoozeActive s now m) now 30 emptySnooze
  induction meds with
  | nil => rfl
  | cons m rest ih =>
      cases hsm : snoozeActive s now m with
      | true =>
          have he : eligibleForReminder now 30 s m = false := by
            simp [eligibleForReminder, hsm]
          simp [getNextDueMedication, he, List.filter_cons, hsm, ih]
      | false =>
          have he : eligibleForReminder now 30 s m =
              eligibleForReminder now 30 emptySnooze m := by
            unfold eligibleForReminder
            rw [hsm]
            rfl
          simp only [List.filter_cons, hsm, Bool.not_false, if_pos]
          simp only [getNextDueMedication, he, ih]

/-- Helper: the getCurrentDose loop returns none exactly when the running
best is empty and every remaining slot is still in the future. -/
theorem getCurrentDoseAux_eq_none (nowMs : Int) :
    ∀ (ts : List Nat) (best : Option (Nat × Int)),
      getCurrentDoseAux nowMs ts best = none ↔
        best = none ∧ ∀ t ∈ ts, nowMs < slotMs t := by
  intro ts
  induction ts with
  | nil =>
      intro best
      simp [getCurrentDoseAux]
  | cons t ts ih =>
      intro best
      by_cases hle : slotMs t ≤ nowMs
      · have hnot : ¬nowMs < slotMs t := by omega
        cases best with
        | none => simp [getCurrentDoseAux, hle, ih, hnot]
        | some p =>
            obtain ⟨b, d⟩ := p
            by_cases hlt : nowMs - slotMs t < d
            · simp [getCurrentDoseAux, hle, hlt, ih, hnot]
            · simp [getCurrentDoseAux, hle, hlt, ih, hnot]
      · have hfut : nowMs < slotMs t := by omega
        cases best with
        | none =>
            simp only [getCurrentDoseAux, if_neg hle, ih]
            simp [hfut]
        | some p =>
            simp only [getCurrentDoseAux, if_neg hle, ih]
            simp

/-- Helper: when the getCurrentDose loop returns a slot, that slot is either
the incoming best or a past slot of the list, its recorded difference is
exact, and it beats the incoming best and every past slot of the list. -/
theorem getCurrentDoseAux_eq_some (nowMs : Int) :
    ∀ (ts : List Nat) (best : Option (Nat × Int)),
      (∀ b db, best = some (b, db) → db = nowMs - slotMs b ∧ slotMs b ≤ nowMs) →
      ∀ (t : Nat) (d : Int),
        getCurrentDoseAux nowMs ts best = some (t, d) →
          d = nowMs - slotMs t ∧ slotMs t ≤ nowMs ∧
            (best = some (t, d) ∨ t ∈ ts) ∧
            (∀ b db, best = some (b, db) → d ≤ db) ∧
            (∀ u ∈ ts, slotMs u ≤ nowMs → d ≤ nowMs - slotMs u) := by
  intro ts
  induction ts with
  | nil =>
      intro best hwf t d heq
      simp only [getCurrentDoseAux] at heq
      obtain ⟨h1, h2⟩ := hwf t d heq
      refine ⟨h1, h2, Or.inl heq, ?_, by simp⟩
      intro b db hbd
      rw [heq] at hbd
      injection hbd with hbd
      cases hbd
      exact le_refl d
  | cons s ts ih =>
      intro best hwf t d heq
      by_cases hle : slotMs s ≤ nowMs
      · cases best with
        | none =>
            simp only [getCurrentDoseAux, if_pos hle] at heq
            have hwf2 : ∀ b db, (some (s, nowMs - slotMs s) : Option (Nat × Int)) =
                some (b, db) → db = nowMs - slotMs b ∧ slotMs b ≤ nowMs := by
              intro b db h
              injection h with h
              cases h
              exact ⟨rfl, hle⟩
            obtain ⟨h1, h2, h3, h4, h5⟩ := ih _ hwf2 t d heq
            refine ⟨h1, h2, Or.inr ?_, ?_, ?_⟩
            · rcases h3 with h3 | h3
              · injection h3 with h3
                cases h3
                exact List.mem_cons_self _ _
              · exact List.mem_cons_of_mem _ h3
            · intro b db hbd
              cases hbd
            · intro u hu hus
              rcases List.mem_cons.mp hu with rfl | hu
              · exact h4 u (nowMs - slotMs u) rfl
              · exact h5 u hu hus
        | some p =>
            obtain ⟨b0, d0⟩ := p
            obtain ⟨hwd0, hwb0⟩ := hwf b0 d0 rfl
            by_cases hlt : nowMs - slotMs s < d0
            · simp only [getCurrentDoseAux, if_pos hle, if_pos hlt] at heq
              have hwf2 : ∀ b db, (some (s, nowMs - slotMs s) : Option (Nat × Int)) =
                  some (b, db) → db = nowMs - slotMs b ∧ slotMs b ≤ nowMs := by
                intro b db h
                injection h with h
                cases h
                exact ⟨rfl, hle⟩
              obtain ⟨h1, h2, h3, h4, h5⟩ := ih _ hwf2 t d heq
              refine ⟨h1, h2, Or.inr ?_, ?_, ?_⟩
              · rcases h3 with h3 | h3
                · injection h3 with h3
                  cases h3
                  exact List.mem_cons_self _ _
                · exact List.mem_cons_of_mem _ h3
              · intro b db hbd
                injection hbd with hbd
                cases hbd
                have hd : d ≤ nowMs - slotMs s := h4 s (nowMs - slotMs s) rfl
                omega
              · intro u hu hus
                rcases List.mem_cons.mp hu with rfl | hu
                · exact h4 u (nowMs - slotMs u) rfl
                · exact h5 u hu hus
            · simp only [getCurrentDoseAux, if_pos hle, if_neg hlt] at heq
              obtain ⟨h1, h2, h3, h4, h5⟩ := ih _ hwf t d heq
              refine ⟨h1, h2, ?_, h4, ?_⟩
              · rcases h3 with h3 | h3
                · exact Or.inl h3
                · exact Or.inr (List.mem_cons_of_mem _ h3)
              · intro u hu hus
                rcases List.mem_cons.mp hu with rfl | hu
                · have hd : d ≤ d0 := h4 b0 d0 rfl
                  omega
                · exact h5 u hu hus
      · simp only [getCurrentDoseAux, if_neg hle] at heq
        obtain ⟨h1, h2, h3, h4, h5⟩ := ih best hwf t d heq
        refine ⟨h1, h2, ?_, h4, ?_⟩
        · rcases h3 with h3 | h3
          · exact Or.inl h3
          · exact Or.inr (List.mem_cons_of_mem _ h3)
        · intro u hu hus
          rcases List.mem_cons.mp hu with rfl | hu
          · omega
          · exact h5 u hu hus

/-- C9: PillCard getCurrentDose returns null exactly when every slot's
today-instant is strictly after now; otherwise it returns a slot at or before
now whose difference from now is minimal among the past slots, so the
confirmation is attributed to the most recent past slot. -/
theorem claim_C9_getCurrentDose :
    ∀ (timings : List Nat) (nowMs : Int),
      (getCurrentDose timings nowMs = none ↔ ∀ t ∈ timings, nowMs < slotMs t) ∧
      (∀ t, getCurrentDose timings nowMs = some t →
          t ∈ timings ∧ slotMs t ≤ nowMs ∧
            ∀ u ∈ timings, slotMs u ≤ nowMs →
              nowMs - slotMs t ≤ nowMs - slotMs u) := by
  intro timings now
  constructor
  · unfold getCurrentDose
    rw [Option.map_eq_none', getCurrentDoseAux_eq_none]
    simp
  · intro t ht
    unfold getCurrentDose at ht
    obtain ⟨⟨t2, d⟩, hp, hfst⟩ := Option.map_eq_some'.mp ht
    have ht2 : t2 = t := hfst
    subst ht2
    obtain ⟨h1, h2, h3, h4, h5⟩ :=
      getCurrentDoseAux_eq_some now timings none (by intro b db h; cases h) t2 d hp
    rcases h3 with h3 | h3
    · cases h3
    · refine ⟨h3, h2, ?_⟩
      intro u hu hus
      have := h5 u hu hus
      omega

/-- C9 witness: at 13:20, with slots 08:00 and 13:00, the confirmation is
attributed to the 13:00 slot; with a single 16:40 slot at midnight nothing
is attributed. -/
theorem claim_C9_getCurrentDose_witness :
    getCurrentDose [1000] 0 = none ∧
    (780 ∈ [480, 780] ∧ slotMs 780 ≤ 48000000 ∧
      ∀ u ∈ [480, 780], slotMs u ≤ 48000000 →
        48000000 - slotMs 780 ≤ 48000000 - slotMs u) :=
  ⟨(claim_C9_getCurrentDose [1000] 0).1.mpr (by decide),
   (claim_C9_getCurrentDose [480, 780] 48000000).2 780 (by decide)⟩

/-- Helper: every Setup time-slot edit keeps a non-empty times list
non-empty (and removal reinstates the default 08:00 slot if needed). -/
theorem applySetupOp_ne_nil (times : List Nat) (op : SetupOp) (h : times ≠ []) :
    applySetupOp times op ≠ [] := by
  cases op with
  | addTime => simp [applySetupOp, addTimeSlot]
  | changeTime i v => simp [applySetupOp, handleTimeChange, List.set_eq_nil_iff, h]
  | removeTime i =>
      simp only [applySetupOp, removeTimeSlot]
      split
      · simp
      · next hne => simpa [List.isEmpty_iff] using hne

/-- C10: after any sequence of add-time, change-time and remove-time edits a
medication entry's times list stays non-empty (removal of the last slot
reinstates a default 08:00 slot), and the submitted payload's times list is
non-empty for every medication. -/
theorem claim_C10_times_nonempty :
    (∀ (ops : List SetupOp) (times : List Nat), times ≠ [] →
        List.foldl applySetupOp times ops ≠ []) ∧
    (∀ times : List Nat, payloadTimes times ≠ []) := by
  constructor
  · intro ops
    induction ops with
    | nil =>
        intro times h
        simpa using h
    | cons op ops ih =>
        intro times h
        rw [List.foldl_cons]
        exact ih _ (applySetupOp_ne_nil times op h)
  · intro times
    unfold payloadTimes
    split
    · simp
    · next hne => simpa [List.isEmpty_iff] using hne

/-- C10 witness: a concrete edit sequence from the default single slot, and
the payload guard on an empty list. -/
theorem claim_C10_times_nonempty_witness :
    List.foldl applySetupOp [480]
      [SetupOp.addTime, SetupOp.removeTime 0, SetupOp.removeTime 0,
        SetupOp.changeTime 0 540] ≠ [] ∧
    payloadTimes [] ≠ [] :=
  ⟨claim_C10_times_nonempty.1 _ [480] (by decide),
   claim_C10_times_nonempty.2 []⟩

/-- C5 counterexample: with remaining 10 and threshold 10 the claim requires
the low-stock warning (remaining ≤ threshold), but InventoryStatus compares
the quantity against 20 percent of the display total max(10, 30) and shows no
warning. -/
theorem claim_C5_counterexample :
    (10 : Nat) ≤ 10 ∧ showsLowStockWarning 10 10 = false := by
  constructor
  · decide
  · norm_num [showsLowStockWarning, isLowStock, stockPercentage, displayTotal,
      effLowStockThreshold]

/-- C5 amended: the warning is shown exactly when five times the quantity is
below three times the effective threshold (the threshold defaulting to 10
when absent or zero), that is when the quantity falls below 20 percent of the
display total max(quantity, 3 times threshold) — not when remaining is at or
below the threshold itself. -/
theorem claim_C5_amended :
    ∀ quantity lowStockThreshold : Nat,
      showsLowStockWarning quantity lowStockThreshold = true ↔
        5 * quantity < 3 * effLowStockThreshold lowStockThreshold := by
  intro q t
  have hT : 1 ≤ effLowStockThreshold t := by
    unfold effLowStockThreshold; split <;> omega
  unfold showsLowStockWarning isLowStock stockPercentage displayTotal
  rw [decide_eq_true_iff]
  have htot : 0 < max q (3 * effLowStockThreshold t) := by omega
  have htotQ : (0 : ℚ) < ((max q (3 * effLowStockThreshold t) : Nat) : ℚ) := by
    exact_mod_cast htot
  rw [div_mul_eq_mul_div, div_lt_iff₀ htotQ]
  constructor
  · intro h
    have hn : q * 100 < 20 * max q (3 * effLowStockThreshold t) := by exact_mod_cast h
    omega
  · intro h
    have hn : q * 100 < 20 * max q (3 * effLowStockThreshold t) := by omega
    exact_mod_cast hn

/-- C6: the spec-modelled inventory decrement never yields a negative
remaining count; at zero it fails with InsufficientStock and the dose
confirmation is rejected with the instance left unresolved and the state
unchanged; otherwise remaining decreases by exactly one. -/
theorem claim_C6_decrement :
    (∀ r : Int, 0 ≤ r →
        (r = 0 → decrement r = .error .insufficientStock) ∧
        (r ≠ 0 → decrement r = .ok (r - 1) ∧ 0 ≤ r - 1)) ∧
    (∀ s : DoseInstanceState, s.resolved = false → s.remaining = 0 →
        confirmDose s = (.insufficientStock, s)) := by
  constructor
  · intro r hr
    constructor
    · intro h0; simp [decrement, h0]
    · intro h0
      constructor
      · simp [decrement, h0]
      · omega
  · intro s hres hrem
    simp [confirmDose, hres, hrem]

/-- C6 witness: the decrement facts at remaining 0 and 3, and the rejected
confirmation at zero stock. -/
theorem claim_C6_decrement_witness :
    (decrement 0 = .error .insufficientStock ∧
      decrement 3 = .ok (3 - 1) ∧ (0 : Int) ≤ 3 - 1) ∧
    confirmDose { resolved := false, remaining := 0 } =
      (.insufficientStock, { resolved := false, remaining := 0 }) :=
  ⟨⟨(claim_C6_decrement.1 0 (by decide)).1 rfl,
    ((claim_C6_decrement.1 3 (by decide)).2 (by decide)).1,
    ((claim_C6_decrement.1 3 (by decide)).2 (by decide)).2⟩,
   claim_C6_decrement.2 { resolved := false, remaining := 0 } rfl rfl⟩

/-- C7: the spec-modelled predictRunOut returns now plus remaining divided by
the daily rate for a positive rate, no prediction for rate zero, and after
restocking 30 units onto remaining 2 with daily rate 2 the predicted run-out
date is now plus 16 days. -/
theorem claim_C7_predictRunOut :
    ∀ (nowDays : ℚ) (remaining rate : Nat),
      (rate = 0 → predictRunOut remaining rate nowDays = none) ∧
      (rate ≠ 0 →
        predictRunOut remaining rate nowDays =
          some (nowDays + (remaining : ℚ) / (rate : ℚ))) ∧
      predictRunOut (restock 2 30) 2 nowDays = some (nowDays + 16) := by
  intro now remaining rate
  refine ⟨fun h0 => by simp [predictRunOut, h0], fun h0 => by simp [predictRunOut, h0], ?_⟩
  show (if (2 : Nat) = 0 then none else
    some (now + ((restock 2 30 : Nat) : ℚ) / ((2 : Nat) : ℚ))) = some (now + 16)
  norm_num [restock]

/-- C7 witness: the prediction at rate 0 and rate 2, and the restock
scenario, at now = 0. -/
theorem claim_C7_predictRunOut_witness :
    predictRunOut 5 0 0 = none ∧
    predictRunOut 5 2 0 = some (0 + (5 : ℚ) / (2 : ℚ)) ∧
    predictRunOut (restock 2 30) 2 0 = some (0 + 16) :=
  ⟨(claim_C7_predictRunOut 0 5 0).1 rfl,
   (claim_C7_predictRunOut 0 5 2).2.1 (by decide),
   (claim_C7_predictRunOut 0 5 2).2.2⟩

/-- C8: dose confirmation is idempotent on the key (medication, slot, day):
marking the same slot taken twice in the day's local record equals marking it
once, a spec-modelled confirmation of an already resolved instance is a no-op
returning AlreadyResolved without touching the inventory, and applying the
spec-modelled confirmation twice leaves the same state (in particular no
second decrement) as applying it once. -/
theorem claim_C8_idempotent :
    (∀ (store : String → List Nat) (medName : String) (time : Nat),
        markDoseTaken (markDoseTaken store medName time) medName time =
          markDoseTaken store medName time) ∧
    (∀ s : DoseInstanceState, s.resolved = true →
        confirmDose s = (.alreadyResolved, s)) ∧
    (∀ s : DoseInstanceState,
        (confirmDose (confirmDose s).2).2 = (confirmDose s).2) := by
  refine ⟨?_, ?_, ?_⟩
  · intro store medName time
    funext n
    by_cases hn : n = medName
    · subst hn
      by_cases hmem : time ∈ store n
      · simp [markDoseTaken, hmem]
      · simp [markDoseTaken, hmem]
    · simp [markDoseTaken, hn]
  · intro s hres
    simp [confirmDose, hres]
  · intro s
    by_cases hres : s.resolved
    · simp [confirmDose, hres]
    · by_cases hrem : s.remaining = 0
      · simp [confirmDose, hres, hrem]
      · simp [confirmDose, hres, hrem]

/-- C8 witness: marking slot 480 twice on an empty record equals marking it
once, and confirming an already resolved instance is a no-op. -/
theorem claim_C8_idempotent_witness :
    markDoseTaken (markDoseTaken (fun _ => []) "Lisinopril" 480) "Lisinopril" 480 =
      markDoseTaken (fun _ => []) "Lisinopril" 480 ∧
    confirmDose { resolved := true, remaining := 5 } =
      (.alreadyResolved, { resolved := true, remaining := 5 }) :=
  ⟨claim_C8_idempotent.1 (fun _ => []) "Lisinopril" 480,
   claim_C8_idempotent.2.1 { resolved := true, remaining := 5 } rfl⟩

end DoseWise
